import Mathlib

/-!
Shallow embedding of the audify audio-recognition core: the heuristic
classifiers and the aggregation stage of `audioClassification.ts`, the
temporal feature computations and the spectral rolloff of the feature
extractor in `AudioRecorder.tsx`, and the recognition orchestrator of the
engine source (the TensorFlow-aware variant of `aiRecognitionEngine.ts`).
JavaScript numbers are modelled exactly over `ℚ`; NaN and the signed
infinities are tracked explicitly by `JSF` in the extractor, where they can
arise.  Floating-point rounding is not modelled.
-/

/-- The `category` union type of `AudioClassificationResult` in
`audioClassification.ts`. -/
inductive Category where
  | music
  | speech
  | environmental
  | animal
  | vehicle
  | other
deriving DecidableEq, Repr

/-- The `audioType` union type of `ClassificationAnalysis` in
`audioClassification.ts`. -/
inductive AudioType where
  | music
  | speech
  | mixed
  | environmental
deriving DecidableEq, Repr

/-- `AudioClassificationResult` of `audioClassification.ts`. -/
structure AudioClassificationResult where
  label : String
  confidence : ℚ
  category : Category
  description : String
  tags : List String
deriving DecidableEq, Repr

/-- `ClassificationAnalysis` of `audioClassification.ts`.  The code stores
`detectedCategories` as the category names; the model keeps the categories
themselves (the rendering of a category as its name string is injective). -/
structure ClassificationAnalysis where
  primaryClassification : AudioClassificationResult
  secondaryClassifications : List AudioClassificationResult
  overallConfidence : ℚ
  detectedCategories : List Category
  audioType : AudioType
deriving DecidableEq, Repr

/-- Model of the JavaScript idiom `[...new Set(xs)]`: keep the first
occurrence of each element, in input order.  The second argument is the set
of elements already seen. -/
def jsSetDedup {α : Type} [DecidableEq α] : List α → List α → List α
  | [], _ => []
  | a :: l, seen => if a ∈ seen then jsSetDedup l seen else a :: jsSetDedup l (a :: seen)

namespace AudioClassificationService

/-- `AudioClassificationService.createFallbackClassification`. -/
def createFallbackClassification : ClassificationAnalysis :=
  { primaryClassification :=
      { label := "Audio Content"
        confidence := 0.5
        category := .other
        description := "General audio content detected"
        tags := ["audio", "content", "general"] }
    secondaryClassifications := []
    overallConfidence := 0.5
    detectedCategories := [.other]
    audioType := .mixed }

/-- `AudioClassificationService.determineAudioType`. -/
def determineAudioType (classifications : List AudioClassificationResult) : AudioType :=
  let categories := classifications.map (·.category)
  if Category.music ∈ categories then .music
  else if Category.speech ∈ categories then .speech
  else if Category.environmental ∈ categories then .environmental
  else .mixed

/-- The ordering imposed by the comparator `(a, b) => b.confidence - a.confidence`
passed to `Array.prototype.sort` in `classifyAudio`: `a` precedes `b` when
`a`'s confidence is at least `b`'s. -/
def confGE (a b : AudioClassificationResult) : Prop :=
  b.confidence ≤ a.confidence

instance : DecidableRel confGE :=
  fun a b => inferInstanceAs (Decidable (b.confidence ≤ a.confidence))

instance : IsTotal AudioClassificationResult confGE :=
  ⟨fun a b => le_total b.confidence a.confidence⟩

instance : IsTrans AudioClassificationResult confGE :=
  ⟨fun _ _ _ hab hbc => le_trans hbc hab⟩

/-- The aggregation stage of `AudioClassificationService.classifyAudio`
(lines 38–69): the settled classifier outcomes arrive as a list of
`result-or-null`; null entries are dropped, an empty remainder yields the
fallback analysis, otherwise the survivors are sorted by confidence
descending (JavaScript `sort` is stable; modelled by `List.insertionSort`,
which is stable) and the analysis is assembled from the sorted array, which
is also what the code's later reads observe since `sort` mutates in place. -/
def classifyAudioAggregate (results : List (Option AudioClassificationResult)) :
    ClassificationAnalysis :=
  let validClassifications := results.filterMap id
  if validClassifications.isEmpty then createFallbackClassification
  else
    let sorted := validClassifications.insertionSort confGE
    { primaryClassification := sorted.headD createFallbackClassification.primaryClassification
      secondaryClassifications := (sorted.drop 1).take 2
      overallConfidence := (sorted.map (·.confidence)).sum / sorted.length
      detectedCategories := jsSetDedup (sorted.map (·.category)) []
      audioType := determineAudioType sorted }

end AudioClassificationService

/-- C2: aggregation of a result sequence with no non-null entries returns the
fixed fallback analysis — primary label "Audio Content", confidence 0.5,
category `other`, audioType `mixed` — and, the model being a total function,
never throws, so the pipeline always yields a result. -/
theorem c2_aggregate_all_null_fallback (results : List (Option AudioClassificationResult))
    (h : results.filterMap id = []) :
    AudioClassificationService.classifyAudioAggregate results
        = AudioClassificationService.createFallbackClassification
      ∧ (AudioClassificationService.classifyAudioAggregate results).primaryClassification.label
        = "Audio Content"
      ∧ (AudioClassificationService.classifyAudioAggregate results).primaryClassification.confidence
        = 0.5
      ∧ (AudioClassificationService.classifyAudioAggregate results).primaryClassification.category
        = Category.other
      ∧ (AudioClassificationService.classifyAudioAggregate results).audioType = AudioType.mixed := by
  have hfall : AudioClassificationService.classifyAudioAggregate results
      = AudioClassificationService.createFallbackClassification := by
    unfold AudioClassificationService.classifyAudioAggregate
    simp [h]
  refine ⟨hfall, ?_, ?_, ?_, ?_⟩ <;> rw [hfall] <;> rfl

/-- Witness for C2 at the concrete input `[null, null, null]`. -/
theorem c2_aggregate_all_null_fallback_witness :
    ([none, none, none] : List (Option AudioClassificationResult)).filterMap id = []
      ∧ AudioClassificationService.classifyAudioAggregate [none, none, none]
        = AudioClassificationService.createFallbackClassification :=
  ⟨rfl, (c2_aggregate_all_null_fallback [none, none, none] rfl).1⟩

namespace AudioClassificationService

/-- The ordering the specification describes for the aggregation sort:
confidence descending, ties broken by the position in the input sequence.
Stability is made explicit by comparing index-tagged results
lexicographically. -/
def confIdxLex (p q : ℕ × AudioClassificationResult) : Prop :=
  q.2.confidence < p.2.confidence ∨ (p.2.confidence = q.2.confidence ∧ p.1 ≤ q.1)

instance : DecidableRel confIdxLex := fun _ _ =>
  inferInstanceAs (Decidable (_ ∨ _))

/-- Specification-side sort (from the spec's words, for comparison with the
code's sort): tag each result with its input position, sort by confidence
descending with position ascending as the tie-break, and forget the tags. -/
def specStableSortDesc (l : List AudioClassificationResult) :
    List AudioClassificationResult :=
  (l.enum.insertionSort confIdxLex).map Prod.snd

theorem confIdxLex_iff_of_le {i j : ℕ} {x y : AudioClassificationResult} (hij : i ≤ j) :
    confIdxLex (i, x) (j, y) ↔ confGE x y := by
  unfold confIdxLex confGE
  constructor
  · rintro (hlt | ⟨heq, -⟩)
    · exact le_of_lt hlt
    · exact le_of_eq heq.symm
  · intro hle
    rcases lt_or_eq_of_le hle with hlt | heq
    · exact Or.inl hlt
    · exact Or.inr ⟨heq.symm, hij⟩

theorem map_snd_orderedInsert (i : ℕ) (x : AudioClassificationResult)
    (s : List (ℕ × AudioClassificationResult)) (hs : ∀ p ∈ s, i ≤ p.1) :
    (s.orderedInsert confIdxLex (i, x)).map Prod.snd
      = (s.map Prod.snd).orderedInsert confGE x := by
  induction s with
  | nil => rfl
  | cons hd tl ih =>
    obtain ⟨j, y⟩ := hd
    have hij : i ≤ j := hs (j, y) (List.mem_cons_self _ _)
    by_cases hxy : confGE x y
    · simp only [List.orderedInsert, if_pos ((confIdxLex_iff_of_le hij).2 hxy),
        List.map_cons, if_pos hxy]
    · simp only [List.orderedInsert, if_neg (fun hc => hxy ((confIdxLex_iff_of_le hij).1 hc)),
        List.map_cons, if_neg hxy]
      rw [ih (fun p hp => hs p (List.mem_cons_of_mem _ hp))]

theorem map_snd_insertionSort_enumFrom (n : ℕ) (l : List AudioClassificationResult) :
    ((l.enumFrom n).insertionSort confIdxLex).map Prod.snd = l.insertionSort confGE := by
  induction l generalizing n with
  | nil => rfl
  | cons x l ih =>
    rw [List.enumFrom_cons, List.insertionSort, List.insertionSort,
      map_snd_orderedInsert n x _ ?_, ih (n + 1)]
    intro p hp
    have hp' : p ∈ List.enumFrom (n + 1) l := (List.mem_insertionSort _).1 hp
    obtain ⟨i, a⟩ := p
    exact Nat.le_of_succ_le (List.mem_enumFrom hp').1

/-- The code's stable sort by descending confidence agrees with the
specification's description: confidence descending, ties broken by input
position. -/
theorem insertionSort_confGE_eq_specStableSortDesc (l : List AudioClassificationResult) :
    l.insertionSort confGE = specStableSortDesc l := by
  unfold specStableSortDesc
  rw [List.enum, map_snd_insertionSort_enumFrom 0 l]

end AudioClassificationService

/-- C4: with at least one non-null classifier result, aggregation sorts the
non-null results by confidence descending, ties broken by input order
(stable sort, characterised by `specStableSortDesc`); the index-0 element of
that order is the primary and indices 1–2 are the secondary results;
`overallConfidence` is the arithmetic mean of all non-null confidences; and
`audioType` comes from the fixed precedence lookup
music > speech > environmental > mixed (`determineAudioType`) over the
non-null results. -/
theorem c4_aggregate_sort_mean_precedence
    (results : List (Option AudioClassificationResult))
    (h : results.filterMap id ≠ []) :
    (AudioClassificationService.classifyAudioAggregate results).primaryClassification
        :: (AudioClassificationService.classifyAudioAggregate results).secondaryClassifications
      = (AudioClassificationService.specStableSortDesc (results.filterMap id)).take 3
    ∧ (AudioClassificationService.classifyAudioAggregate results).overallConfidence
      = ((results.filterMap id).map (·.confidence)).sum / (results.filterMap id).length
    ∧ (AudioClassificationService.classifyAudioAggregate results).audioType
      = AudioClassificationService.determineAudioType (results.filterMap id)
    ∧ (AudioClassificationService.specStableSortDesc (results.filterMap id)).Perm
        (results.filterMap id)
    ∧ List.Sorted AudioClassificationService.confGE
        (AudioClassificationService.specStableSortDesc (results.filterMap id)) := by
  have hsort := AudioClassificationService.insertionSort_confGE_eq_specStableSortDesc
    (results.filterMap id)
  have hperm : List.Perm
      ((results.filterMap id).insertionSort AudioClassificationService.confGE)
      (results.filterMap id) := List.perm_insertionSort _ _
  have hsorted : List.Sorted AudioClassificationService.confGE
      ((results.filterMap id).insertionSort AudioClassificationService.confGE) :=
    List.sorted_insertionSort _ _
  have hne : ((results.filterMap id).insertionSort AudioClassificationService.confGE) ≠ [] := by
    intro hnil
    exact h ((hnil ▸ hperm).symm.eq_nil)
  have hempty : (results.filterMap id).isEmpty = false := by
    simpa [List.isEmpty_iff] using h
  unfold AudioClassificationService.classifyAudioAggregate
  simp only [hempty, Bool.false_eq_true, if_false]
  refine ⟨?_, ?_, ?_, ?_, ?_⟩
  · rw [← hsort]
    rcases hl : (results.filterMap id).insertionSort AudioClassificationService.confGE with
      _ | ⟨a, tl⟩
    · exact absurd hl hne
    · simp
  · rw [List.Perm.sum_eq (hperm.map (·.confidence)), hperm.length_eq]
  · unfold AudioClassificationService.determineAudioType
    simp only [List.Perm.mem_iff (hperm.map (·.category))]
  · rw [← hsort]; exact hperm
  · rw [← hsort]; exact hsorted

/-- A concrete classifier outcome list exercising C4, with a confidence tie
between the two non-null entries to observe stability. -/
def c4SampleResults : List (Option AudioClassificationResult) :=
  [some { label := "A", confidence := 0.6, category := .speech, description := "a", tags := [] },
   none,
   some { label := "B", confidence := 0.6, category := .music, description := "b", tags := [] }]

/-- Witness for C4 at `c4SampleResults`. -/
theorem c4_aggregate_sort_mean_precedence_witness :
    c4SampleResults.filterMap id ≠ []
      ∧ ((AudioClassificationService.classifyAudioAggregate c4SampleResults).primaryClassification
            :: (AudioClassificationService.classifyAudioAggregate
              c4SampleResults).secondaryClassifications
          = (AudioClassificationService.specStableSortDesc (c4SampleResults.filterMap id)).take 3
        ∧ (AudioClassificationService.classifyAudioAggregate c4SampleResults).overallConfidence
          = ((c4SampleResults.filterMap id).map (·.confidence)).sum
            / (c4SampleResults.filterMap id).length
        ∧ (AudioClassificationService.classifyAudioAggregate c4SampleResults).audioType
          = AudioClassificationService.determineAudioType (c4SampleResults.filterMap id)
        ∧ (AudioClassificationService.specStableSortDesc
            (c4SampleResults.filterMap id)).Perm (c4SampleResults.filterMap id)
        ∧ List.Sorted AudioClassificationService.confGE
            (AudioClassificationService.specStableSortDesc (c4SampleResults.filterMap id))) :=
  ⟨by decide, c4_aggregate_sort_mean_precedence c4SampleResults (by decide)⟩

/-- Model of a JavaScript IEEE-754 number as far as it matters here: an
exact rational, NaN, or a signed infinity.  Rounding is not modelled; NaN
and infinity creation and propagation are. -/
inductive JSF where
  | num (q : ℚ)
  | nan
  | inf
  | ninf
deriving DecidableEq, Repr

namespace JSF

/-- JavaScript multiplication on the modelled values. -/
def mul : JSF → JSF → JSF
  | nan, _ => nan
  | _, nan => nan
  | num a, num b => num (a * b)
  | num a, inf => if 0 < a then inf else if a < 0 then ninf else nan
  | inf, num b => if 0 < b then inf else if b < 0 then ninf else nan
  | num a, ninf => if 0 < a then ninf else if a < 0 then inf else nan
  | ninf, num b => if 0 < b then ninf else if b < 0 then inf else nan
  | inf, inf => inf
  | inf, ninf => ninf
  | ninf, inf => ninf
  | ninf, ninf => inf

/-- JavaScript division on the modelled values: `0/0` is NaN, a non-zero
numerator over zero is a signed infinity. -/
def div : JSF → JSF → JSF
  | nan, _ => nan
  | _, nan => nan
  | num a, num b =>
      if b = 0 then (if a = 0 then nan else if 0 < a then inf else ninf)
      else num (a / b)
  | num _, inf => num 0
  | num _, ninf => num 0
  | inf, num b => if b < 0 then ninf else inf
  | ninf, num b => if b < 0 then inf else ninf
  | inf, inf => nan
  | inf, ninf => nan
  | ninf, inf => nan
  | ninf, ninf => nan

/-- `Math.min` of two values: NaN if either argument is NaN. -/
def jmin : JSF → JSF → JSF
  | nan, _ => nan
  | _, nan => nan
  | ninf, _ => ninf
  | _, ninf => ninf
  | inf, b => b
  | a, inf => a
  | num a, num b => num (min a b)

/-- `Math.max` of two values: NaN if either argument is NaN. -/
def jmax : JSF → JSF → JSF
  | nan, _ => nan
  | _, nan => nan
  | inf, _ => inf
  | _, inf => inf
  | ninf, b => b
  | a, ninf => a
  | num a, num b => num (max a b)

/-- `Math.sqrt`, abstracted over the value of the square root on
non-negative rationals (no audited claim depends on that value, only on the
NaN and sign behaviour): NaN for NaN and for negative arguments. -/
def sqrtWith (f : ℚ → ℚ) : JSF → JSF
  | nan => nan
  | ninf => nan
  | inf => inf
  | num q => if q < 0 then nan else num (f q)

end JSF

namespace AudioAnalyzer

/-- `AudioAnalyzer.calculateRMSEnergy`: the square root of the mean of the
squared samples of channel 0; `f` abstracts `Math.sqrt` on non-negative
rationals.  For an empty channel the mean is `0/0`. -/
def calculateRMSEnergy (f : ℚ → ℚ) (channelData : List ℚ) : JSF :=
  let sum := (channelData.map (fun s => s * s)).sum
  JSF.sqrtWith f (JSF.div (.num sum) (.num channelData.length))

/-- The sign-change count of the loop in
`AudioAnalyzer.calculateZeroCrossingRate`: adjacent pairs
`(channelData[i-1], channelData[i])` with
`(d[i] >= 0 && d[i-1] < 0) || (d[i] < 0 && d[i-1] >= 0)`. -/
def zcrCrossings (channelData : List ℚ) : ℕ :=
  (channelData.zip channelData.tail).countP
    (fun p => (decide (0 ≤ p.2) && decide (p.1 < 0)) || (decide (p.2 < 0) && decide (0 ≤ p.1)))

/-- `AudioAnalyzer.calculateZeroCrossingRate`: `crossings / (length - 1)`
under JavaScript number semantics — a one-sample channel gives `0/0 = NaN`,
an empty channel gives `0/(-1) = -0`, modelled as `0`. -/
def calculateZeroCrossingRate (channelData : List ℚ) : JSF :=
  JSF.div (.num (zcrCrossings channelData)) (.num (((channelData.length : ℤ) - 1 : ℤ) : ℚ))

/-- `AudioAnalyzer.estimateTempo`: the zero-crossing rate scaled by
`sampleRate * 60 / (2 * Math.PI)` and clamped by
`Math.max(60, Math.min(200, ·))`.  `twoPi` stands for the irrational
constant `2 * Math.PI`, taken as a parameter; the theorems below hold for
every non-zero value of it. -/
def estimateTempo (twoPi : ℚ) (channelData : List ℚ) (sampleRate : ℚ) : JSF :=
  let zeroCrossingRate := calculateZeroCrossingRate channelData
  let estimatedTempo :=
    JSF.div (JSF.mul (JSF.mul zeroCrossingRate (.num sampleRate)) (.num 60)) (.num twoPi)
  JSF.jmax (.num 60) (JSF.jmin (.num 200) estimatedTempo)

/-- The temporal fields of `AudioAnalyzer.extractFeatures`.  The spectral
fields pass through the trigonometric frequency transform `performFFT`,
which no audited claim depends on, so they are not modelled here; the
rolloff computation on a given spectrum is modelled separately below. -/
structure TemporalFeatures where
  zeroCrossingRate : JSF
  rmsEnergy : JSF
  tempo : JSF
deriving DecidableEq, Repr

/-- The temporal part of `AudioAnalyzer.extractFeatures`: RMS energy,
zero-crossing rate and tempo of channel 0, computed exactly as in
`extractFeatures`; no failure path exists, whatever values arise. -/
def extractTemporalFeatures (f : ℚ → ℚ) (twoPi : ℚ)
    (channelData : List ℚ) (sampleRate : ℚ) : TemporalFeatures :=
  { zeroCrossingRate := calculateZeroCrossingRate channelData
    rmsEnergy := calculateRMSEnergy f channelData
    tempo := estimateTempo twoPi channelData sampleRate }

/-- The scan loop of `AudioAnalyzer.calculateSpectralRolloff`: walk the
(frequency, magnitude) pairs accumulating cumulative energy; return the
first frequency whose cumulative energy reaches the target, else the
fallback `lastFreq` (the code's `frequencies[frequencies.length - 1]`). -/
def rolloffGo (target lastFreq : ℚ) : List (ℚ × ℚ) → ℚ → ℚ
  | [], _ => lastFreq
  | p :: rest, cum =>
      if target ≤ cum + p.2 then p.1 else rolloffGo target lastFreq rest (cum + p.2)

/-- `AudioAnalyzer.calculateSpectralRolloff` with the 0.85 threshold exposed
as a parameter, to state the claimed monotonicity in the threshold.  The
fallback last element is modelled with default 0; the audited claims assume
a non-empty spectrum with `frequencies` and `magnitudes` of equal length,
as the data model requires. -/
def calculateSpectralRolloffAt (threshold : ℚ) (frequencies magnitudes : List ℚ) : ℚ :=
  rolloffGo (threshold * magnitudes.sum) (frequencies.getLastD 0)
    (frequencies.zip magnitudes) 0

/-- `AudioAnalyzer.calculateSpectralRolloff` as in the source, with its
fixed `threshold = 0.85`. -/
def calculateSpectralRolloff (frequencies magnitudes : List ℚ) : ℚ :=
  calculateSpectralRolloffAt 0.85 frequencies magnitudes

end AudioAnalyzer

/-- Whether a modelled number is a real number within the clamp range
[60, 200] BPM. -/
def tempoInClampRange : JSF → Bool
  | .num q => decide (60 ≤ q) && decide (q ≤ 200)
  | _ => false

/-- C10: feature extraction does not guard degenerate channel lengths — an
empty channel 0 makes `rmsEnergy` NaN (`0/0`), a one-sample channel makes
`zeroCrossingRate` NaN (division by `length - 1 = 0`) and hence the derived
`tempo` NaN; no error is raised (the extraction is total) and the NaN
values land in the returned features. -/
theorem c10_degenerate_lengths_produce_nan (f : ℚ → ℚ) (twoPi sampleRate x : ℚ) :
    (AudioAnalyzer.extractTemporalFeatures f twoPi [] sampleRate).rmsEnergy = JSF.nan
      ∧ (AudioAnalyzer.extractTemporalFeatures f twoPi [x] sampleRate).zeroCrossingRate = JSF.nan
      ∧ (AudioAnalyzer.extractTemporalFeatures f twoPi [x] sampleRate).tempo = JSF.nan :=
  ⟨rfl, rfl, rfl⟩

/-- C6 counterexample: a decoded buffer whose channel 0 holds exactly one
sample has zero-crossing rate `0/0 = NaN`, so the derived tempo is NaN and
not within [60, 200].  (`628/100` stands in for the constant `2π`; NaN
propagates for every value of it, and the sample rate 44100 is the usual
one.) -/
theorem c6_counterexample_one_sample_tempo_nan :
    AudioAnalyzer.estimateTempo (628/100) [1] 44100 = JSF.nan
      ∧ tempoInClampRange (AudioAnalyzer.estimateTempo (628/100) [1] 44100) = false := by
  decide

/-- C6 (amended): for every buffer whose channel 0 has at least two samples
— so that the zero-crossing rate is a real number — and every non-zero
value of the `2π` constant, the extracted tempo is a real number clamped
into [60, 200], regardless of the sample rate and of input energy. -/
theorem c6_tempo_clamped (twoPi sampleRate : ℚ) (channelData : List ℚ)
    (hlen : 2 ≤ channelData.length) (htp : twoPi ≠ 0) :
    tempoInClampRange (AudioAnalyzer.estimateTempo twoPi channelData sampleRate) = true := by
  have hden : ((((channelData.length : ℤ) - 1 : ℤ) : ℚ)) ≠ 0 := by
    have h1 : (1 : ℤ) ≤ (channelData.length : ℤ) - 1 := by
      omega
    intro hc
    rw [Int.cast_eq_zero] at hc
    omega
  have hz : AudioAnalyzer.calculateZeroCrossingRate channelData
      = JSF.num ((AudioAnalyzer.zcrCrossings channelData : ℚ)
          / (((channelData.length : ℤ) - 1 : ℤ) : ℚ)) := by
    unfold AudioAnalyzer.calculateZeroCrossingRate
    simp only [JSF.div]
    rw [if_neg hden]
  unfold AudioAnalyzer.estimateTempo
  rw [hz]
  simp only [JSF.mul, JSF.div]
  rw [if_neg htp]
  simp only [JSF.jmin, JSF.jmax, tempoInClampRange, Bool.and_eq_true, decide_eq_true_eq]
  exact ⟨le_max_left _ _, max_le (by norm_num) (min_le_left _ _)⟩

/-- Witness for C6 (amended) on a two-sample buffer at 44.1 kHz. -/
theorem c6_tempo_clamped_witness :
    2 ≤ ([1, -1] : List ℚ).length ∧ (628/100 : ℚ) ≠ 0
      ∧ tempoInClampRange (AudioAnalyzer.estimateTempo (628/100) [1, -1] 44100) = true :=
  ⟨by decide, by norm_num, c6_tempo_clamped (628/100) 44100 [1, -1] (by decide) (by norm_num)⟩

namespace AudioAnalyzer

theorem rolloffGo_spec (target lastFreq : ℚ) (ps : List (ℚ × ℚ)) :
    ∀ cum : ℚ,
      (∃ i, ∃ hi : i < ps.length,
          rolloffGo target lastFreq ps cum = (ps.get ⟨i, hi⟩).1
            ∧ target ≤ cum + ((ps.map Prod.snd).take (i + 1)).sum
            ∧ ∀ j < i, cum + ((ps.map Prod.snd).take (j + 1)).sum < target)
        ∨ ((∀ i < ps.length, cum + ((ps.map Prod.snd).take (i + 1)).sum < target)
            ∧ rolloffGo target lastFreq ps cum = lastFreq) := by
  induction ps with
  | nil =>
    intro cum
    exact Or.inr ⟨fun i hi => absurd hi (Nat.not_lt_zero i), rfl⟩
  | cons p rest ih =>
    intro cum
    by_cases h : target ≤ cum + p.2
    · left
      refine ⟨0, Nat.succ_pos _, ?_, ?_, ?_⟩
      · simp [rolloffGo, h]
      · simpa using h
      · intro j hj
        omega
    · push_neg at h
      have hstep : rolloffGo target lastFreq (p :: rest) cum
          = rolloffGo target lastFreq rest (cum + p.2) := by
        simp only [rolloffGo]
        rw [if_neg (not_le.2 h)]
      rcases ih (cum + p.2) with ⟨i, hi, heq, hge, hlt⟩ | ⟨hall, heq⟩
      · left
        refine ⟨i + 1, Nat.succ_lt_succ hi, ?_, ?_, ?_⟩
        · rw [hstep, heq]
          rfl
        · simp only [List.map_cons, List.take_succ_cons, List.sum_cons, ← add_assoc]
          exact hge
        · intro j hj
          cases j with
          | zero => simpa using h
          | succ k =>
            have hk := hlt k (Nat.lt_of_succ_lt_succ hj)
            simp only [List.map_cons, List.take_succ_cons, List.sum_cons, ← add_assoc]
            exact hk
      · right
        refine ⟨?_, by rw [hstep, heq]⟩
        intro i hi
        cases i with
        | zero => simpa using h
        | succ k =>
          have hk := hall k (Nat.lt_of_succ_lt_succ hi)
          simp only [List.map_cons, List.take_succ_cons, List.sum_cons, ← add_assoc]
          exact hk

/-- Characterisation of `calculateSpectralRolloffAt` for parallel sequences
of equal length: either the result is the entry at the least index whose
cumulative magnitude reaches `threshold * total`, or no index reaches it and
the result is the final frequency. -/
theorem calculateSpectralRolloffAt_spec (threshold : ℚ) (frequencies magnitudes : List ℚ)
    (hlen : frequencies.length = magnitudes.length) :
    (∃ i, ∃ hi : i < frequencies.length,
        calculateSpectralRolloffAt threshold frequencies magnitudes
            = frequencies.get ⟨i, hi⟩
          ∧ threshold * magnitudes.sum ≤ (magnitudes.take (i + 1)).sum
          ∧ ∀ j < i, (magnitudes.take (j + 1)).sum < threshold * magnitudes.sum)
      ∨ ((∀ i < magnitudes.length,
            (magnitudes.take (i + 1)).sum < threshold * magnitudes.sum)
          ∧ calculateSpectralRolloffAt threshold frequencies magnitudes
            = frequencies.getLastD 0) := by
  have hzlen : (frequencies.zip magnitudes).length = frequencies.length := by
    rw [List.length_zip, hlen, min_self]
  have hzsnd : (frequencies.zip magnitudes).map Prod.snd = magnitudes :=
    List.map_snd_zip _ _ (le_of_eq hlen.symm)
  have hspec := rolloffGo_spec (threshold * magnitudes.sum) (frequencies.getLastD 0)
    (frequencies.zip magnitudes) 0
  unfold calculateSpectralRolloffAt
  rcases hspec with ⟨i, hi, heq, hge, hlt⟩ | ⟨hall, heq⟩
  · left
    have hif : i < frequencies.length := hzlen ▸ hi
    refine ⟨i, hif, ?_, ?_, ?_⟩
    · rw [heq]
      have : (frequencies.zip magnitudes).get ⟨i, hi⟩
          = (frequencies.get ⟨i, hif⟩, magnitudes.get ⟨i, hlen ▸ hif⟩) := by
        simp [List.get_eq_getElem, List.getElem_zip]
      rw [this]
    · rw [hzsnd] at hge
      simpa using hge
    · intro j hj
      have := hlt j hj
      rw [hzsnd] at this
      simpa using this
  · right
    refine ⟨?_, heq⟩
    intro i hi
    have := hall i (by rw [hzlen, hlen]; exact hi)
    rw [hzsnd] at this
    simpa using this

theorem getLastD_mem_of_ne_nil {l : List ℚ} (h : l ≠ []) (d : ℚ) : l.getLastD d ∈ l := by
  rw [List.getLastD_eq_getLast?, List.getLast?_eq_getLast l h, Option.getD_some]
  exact List.getLast_mem h

theorem get_le_getLastD_of_sorted {l : List ℚ} (hs : List.Sorted (· ≤ ·) l)
    (h : l ≠ []) (d : ℚ) (i : ℕ) (hi : i < l.length) :
    l.get ⟨i, hi⟩ ≤ l.getLastD d := by
  rw [List.getLastD_eq_getLast?, List.getLast?_eq_getLast l h, Option.getD_some,
    List.getLast_eq_get l h]
  exact hs.rel_get_of_le (by simp [Fin.le_def]; omega)

end AudioAnalyzer

/-- C8: for a non-empty spectrum with parallel ascending `frequencies` and
non-negative `magnitudes` of equal length, the computed rolloff is the
frequency at the least index whose cumulative magnitude reaches 85% of
total magnitude energy (the highest bin frequency if never reached) — with
ascending frequencies the least such index carries the lowest such
frequency; the result is always one of the `frequencies` values; and the
result is non-decreasing as the threshold is raised. -/
theorem c8_rolloff_member_lowest_monotone (t₁ t₂ : ℚ) (frequencies magnitudes : List ℚ)
    (hlen : frequencies.length = magnitudes.length)
    (hne : frequencies ≠ [])
    (hsorted : List.Sorted (· ≤ ·) frequencies)
    (hmag : ∀ m ∈ magnitudes, 0 ≤ m)
    (ht : t₁ ≤ t₂) :
    AudioAnalyzer.calculateSpectralRolloff frequencies magnitudes ∈ frequencies
      ∧ ((∃ i, ∃ hi : i < frequencies.length,
            AudioAnalyzer.calculateSpectralRolloff frequencies magnitudes
                = frequencies.get ⟨i, hi⟩
              ∧ (0.85 : ℚ) * magnitudes.sum ≤ (magnitudes.take (i + 1)).sum
              ∧ ∀ j < i, (magnitudes.take (j + 1)).sum < (0.85 : ℚ) * magnitudes.sum)
          ∨ ((∀ i < magnitudes.length,
                (magnitudes.take (i + 1)).sum < (0.85 : ℚ) * magnitudes.sum)
              ∧ AudioAnalyzer.calculateSpectralRolloff frequencies magnitudes
                = frequencies.getLastD 0))
      ∧ AudioAnalyzer.calculateSpectralRolloffAt t₁ frequencies magnitudes
        ≤ AudioAnalyzer.calculateSpectralRolloffAt t₂ frequencies magnitudes := by
  have hchar := AudioAnalyzer.calculateSpectralRolloffAt_spec 0.85 frequencies magnitudes hlen
  have hmem : AudioAnalyzer.calculateSpectralRolloff frequencies magnitudes ∈ frequencies := by
    rcases hchar with ⟨i, hi, heq, -, -⟩ | ⟨-, heq⟩
    · rw [AudioAnalyzer.calculateSpectralRolloff, heq]
      exact List.get_mem _ _ _
    · rw [AudioAnalyzer.calculateSpectralRolloff, heq]
      exact AudioAnalyzer.getLastD_mem_of_ne_nil hne 0
  have htot : (0 : ℚ) ≤ magnitudes.sum := List.sum_nonneg hmag
  have hT : t₁ * magnitudes.sum ≤ t₂ * magnitudes.sum :=
    mul_le_mul_of_nonneg_right ht htot
  have hmono : AudioAnalyzer.calculateSpectralRolloffAt t₁ frequencies magnitudes
      ≤ AudioAnalyzer.calculateSpectralRolloffAt t₂ frequencies magnitudes := by
    rcases AudioAnalyzer.calculateSpectralRolloffAt_spec t₁ frequencies magnitudes hlen with
      ⟨i₁, hi₁, heq₁, hge₁, hlt₁⟩ | ⟨hall₁, heq₁⟩
    · rcases AudioAnalyzer.calculateSpectralRolloffAt_spec t₂ frequencies magnitudes hlen with
        ⟨i₂, hi₂, heq₂, hge₂, hlt₂⟩ | ⟨hall₂, heq₂⟩
      · have hle : i₁ ≤ i₂ := by
          by_contra hc
          push_neg at hc
          exact absurd hge₂ (not_le.2 (lt_of_lt_of_le (hlt₁ i₂ hc) hT))
        rw [heq₁, heq₂]
        exact hsorted.rel_get_of_le (Fin.mk_le_mk.2 hle)
      · rw [heq₁, heq₂]
        exact AudioAnalyzer.get_le_getLastD_of_sorted hsorted hne 0 i₁ hi₁
    · rcases AudioAnalyzer.calculateSpectralRolloffAt_spec t₂ frequencies magnitudes hlen with
        ⟨i₂, hi₂, heq₂, hge₂, hlt₂⟩ | ⟨hall₂, heq₂⟩
      · exact absurd hge₂ (not_le.2 (lt_of_lt_of_le (hall₁ i₂ (hlen ▸ hi₂)) hT))
      · rw [heq₁, heq₂]
  exact ⟨hmem, hchar, hmono⟩

/-- Witness for C8 on the concrete spectrum `[0, 100, 200]` with unit
magnitudes and thresholds 0.5 ≤ 0.9. -/
theorem c8_rolloff_member_lowest_monotone_witness :
    ([0, 100, 200] : List ℚ).length = ([1, 1, 1] : List ℚ).length
      ∧ ([0, 100, 200] : List ℚ) ≠ []
      ∧ List.Sorted (· ≤ ·) ([0, 100, 200] : List ℚ)
      ∧ (∀ m ∈ ([1, 1, 1] : List ℚ), 0 ≤ m)
      ∧ (0.5 : ℚ) ≤ 0.9
      ∧ (AudioAnalyzer.calculateSpectralRolloff [0, 100, 200] [1, 1, 1] ∈ ([0, 100, 200] : List ℚ)
        ∧ ((∃ i, ∃ hi : i < ([0, 100, 200] : List ℚ).length,
              AudioAnalyzer.calculateSpectralRolloff [0, 100, 200] [1, 1, 1]
                  = ([0, 100, 200] : List ℚ).get ⟨i, hi⟩
                ∧ (0.85 : ℚ) * ([1, 1, 1] : List ℚ).sum ≤ (([1, 1, 1] : List ℚ).take (i + 1)).sum
                ∧ ∀ j < i, (([1, 1, 1] : List ℚ).take (j + 1)).sum
                    < (0.85 : ℚ) * ([1, 1, 1] : List ℚ).sum)
            ∨ ((∀ i < ([1, 1, 1] : List ℚ).length,
                  (([1, 1, 1] : List ℚ).take (i + 1)).sum
                    < (0.85 : ℚ) * ([1, 1, 1] : List ℚ).sum)
                ∧ AudioAnalyzer.calculateSpectralRolloff [0, 100, 200] [1, 1, 1]
                  = ([0, 100, 200] : List ℚ).getLastD 0))
        ∧ AudioAnalyzer.calculateSpectralRolloffAt 0.5 [0, 100, 200] [1, 1, 1]
          ≤ AudioAnalyzer.calculateSpectralRolloffAt 0.9 [0, 100, 200] [1, 1, 1]) :=
  ⟨by decide, by decide, by decide, by decide, by norm_num,
    c8_rolloff_member_lowest_monotone 0.5 0.9 [0, 100, 200] [1, 1, 1]
      (by decide) (by decide) (by decide) (by decide) (by norm_num)⟩

/-- The caller-visible metadata of an audio `Blob` consumed by the
classifiers: its MIME `type`, its `size` in bytes, the `duration` the audio
element reports, and whether metadata loading succeeds (`onloadedmetadata`
versus `onerror`). -/
structure BlobMeta where
  type : String
  size : ℕ
  duration : ℚ
  metadataOk : Bool
deriving DecidableEq, Repr

/-- Model of JavaScript `hay.includes(pat)`. -/
def strIncludes (hay pat : String) : Bool :=
  (List.range (hay.length + 1)).any (fun i => pat.data.isPrefixOf (hay.data.drop i))

namespace AudioClassificationService

/-- `AudioClassificationService.classifyWithAudioFeatures`: buckets the
audio element's reported duration; resolves null when metadata fails to
load. -/
def classifyWithAudioFeatures (audioBlob : BlobMeta) : Option AudioClassificationResult :=
  if audioBlob.metadataOk then
    if audioBlob.duration < 5 then
      some { label := "Short Audio Clip", confidence := 0.7, category := .other,
             description := "Brief audio segment", tags := ["short", "clip", "brief"] }
    else if 60 < audioBlob.duration then
      some { label := "Long Audio Content", confidence := 0.8, category := .other,
             description := "Extended audio content", tags := ["long", "extended", "content"] }
    else
      some { label := "Medium Audio", confidence := 0.6, category := .other,
             description := "Standard audio length", tags := ["medium", "standard", "audio"] }
  else none

/-- `AudioClassificationService.classifyWithPatternMatching`: decides on the
blob's MIME type string and byte size alone. -/
def classifyWithPatternMatching (audioBlob : BlobMeta) : Option AudioClassificationResult :=
  if strIncludes audioBlob.type "audio" then
    if 5 * 1024 * 1024 < audioBlob.size then
      some { label := "High Quality Audio", confidence := 0.75, category := .music,
             description := "High bitrate audio content",
             tags := ["high-quality", "music", "bitrate"] }
    else
      some { label := "Standard Audio", confidence := 0.65, category := .other,
             description := "Standard audio quality", tags := ["standard", "audio", "quality"] }
  else none

/-- The `mockResults` array of
`AudioClassificationService.classifyWithHuggingFace`. -/
def mockResults : List AudioClassificationResult :=
  [{ label := "Cat Meowing", confidence := 0.92, category := .animal,
     description := "Feline vocalization detected", tags := ["cat", "meow", "animal", "pet"] },
   { label := "Dog Barking", confidence := 0.89, category := .animal,
     description := "Canine vocalization detected", tags := ["dog", "bark", "animal", "pet"] },
   { label := "Bird Chirping", confidence := 0.87, category := .animal,
     description := "Avian vocalization detected", tags := ["bird", "chirp", "animal", "nature"] },
   { label := "Rock Music", confidence := 0.85, category := .music,
     description := "Rock genre musical content", tags := ["music", "rock", "guitar", "drums"] },
   { label := "Classical Music", confidence := 0.83, category := .music,
     description := "Classical orchestral music", tags := ["music", "classical", "orchestra", "piano"] },
   { label := "Electronic Music", confidence := 0.81, category := .music,
     description := "Electronic synthesized music", tags := ["music", "electronic", "synth", "beats"] },
   { label := "Human Speech", confidence := 0.88, category := .speech,
     description := "Human vocal communication", tags := ["speech", "human", "voice", "conversation"] },
   { label := "Singing Voice", confidence := 0.86, category := .speech,
     description := "Human vocal performance", tags := ["speech", "singing", "voice", "music"] },
   { label := "Traffic Sounds", confidence := 0.78, category := .environmental,
     description := "Vehicle and traffic noise", tags := ["traffic", "vehicles", "urban", "environment"] },
   { label := "Nature Sounds", confidence := 0.76, category := .environmental,
     description := "Natural environmental audio", tags := ["nature", "environment", "outdoor", "ambient"] },
   { label := "Office Environment", confidence := 0.74, category := .environmental,
     description := "Indoor office sounds", tags := ["office", "indoor", "environment", "ambient"] }]

/-- `AudioClassificationService.classifyWithHuggingFace`, which takes no
audio input at all and instead consumes two `Math.random()` draws from the
ambient global generator: `r₁` selects the mock entry via
`Math.floor(r₁ * mockResults.length)`, `r₂` perturbs the confidence.  Draws
lie in [0, 1); an out-of-range selector would read past the array in
JavaScript, mapped to `none` here.  The simulated API delay is not
modelled. -/
def classifyWithHuggingFace (r₁ r₂ : ℚ) : Option AudioClassificationResult :=
  match mockResults.get? (Int.floor (r₁ * (mockResults.length : ℚ))).toNat with
  | none => none
  | some randomResult =>
    let confidence :=
      if randomResult.category = .animal then 0.85 + r₂ * 0.1
      else randomResult.confidence + r₂ * 0.1
    some { randomResult with confidence := min 0.95 confidence }

end AudioClassificationService

/-- C9 counterexample: the HuggingFace mock classifier is driven by the
global random generator, so two invocations on the very same audio input —
differing only in the ambient random state, here first draw 0 versus 0.5 —
return different results ("Cat Meowing" versus "Electronic Music"). -/
theorem c9_counterexample_random_classifier :
    AudioClassificationService.classifyWithHuggingFace 0 0
      ≠ AudioClassificationService.classifyWithHuggingFace 0.5 0 := by
  have hidx0 : (Int.floor ((0 : ℚ) * (AudioClassificationService.mockResults.length : ℚ))).toNat
      = 0 := by
    norm_num
  have hidx5 : (Int.floor ((0.5 : ℚ) * (AudioClassificationService.mockResults.length : ℚ))).toNat
      = 5 := by
    norm_num [AudioClassificationService.mockResults]
    rfl
  intro heq
  unfold AudioClassificationService.classifyWithHuggingFace at heq
  rw [hidx0, hidx5] at heq
  simp [AudioClassificationService.mockResults] at heq

/-- C9 (amended): the duration classifier and the pattern-matching
classifier are pure functions of their input blob — the former depends only
on the reported duration and metadata success, the latter only on the MIME
type and size — while the HuggingFace mock classifier is deterministic only
once its two random draws are fixed, so two of its invocations may differ
(see the counterexample). -/
theorem c9_deterministic_classifiers (b₁ b₂ : BlobMeta) :
    (b₁.type = b₂.type → b₁.size = b₂.size →
        AudioClassificationService.classifyWithPatternMatching b₁
          = AudioClassificationService.classifyWithPatternMatching b₂)
      ∧ (b₁.duration = b₂.duration → b₁.metadataOk = b₂.metadataOk →
        AudioClassificationService.classifyWithAudioFeatures b₁
          = AudioClassificationService.classifyWithAudioFeatures b₂) := by
  constructor
  · intro htype hsize
    unfold AudioClassificationService.classifyWithPatternMatching
    rw [htype, hsize]
  · intro hdur hok
    unfold AudioClassificationService.classifyWithAudioFeatures
    rw [hdur, hok]

/-- Witness for C9 (amended) at a concrete pair of equal blob metadata
records. -/
theorem c9_deterministic_classifiers_witness :
    (({ type := "audio/webm", size := 6291456, duration := 3, metadataOk := true } : BlobMeta).type
        = ({ type := "audio/webm", size := 6291456, duration := 3, metadataOk := true } : BlobMeta).type)
      ∧ AudioClassificationService.classifyWithPatternMatching
          { type := "audio/webm", size := 6291456, duration := 3, metadataOk := true }
        = AudioClassificationService.classifyWithPatternMatching
          { type := "audio/webm", size := 6291456, duration := 3, metadataOk := true }
      ∧ AudioClassificationService.classifyWithAudioFeatures
          { type := "audio/webm", size := 6291456, duration := 3, metadataOk := true }
        = AudioClassificationService.classifyWithAudioFeatures
          { type := "audio/webm", size := 6291456, duration := 3, metadataOk := true } :=
  ⟨rfl,
    (c9_deterministic_classifiers _ _).1 rfl rfl,
    (c9_deterministic_classifiers _ _).2 rfl rfl⟩

/-- The `sentiment` union type of `SpeechAnalysisResult` in
`speechRecognition.ts`. -/
inductive Sentiment where
  | positive
  | negative
  | neutral
deriving DecidableEq, Repr

/-- `SpeechAnalysisResult` of `speechRecognition.ts`, as consumed by the
engine. -/
structure SpeechAnalysisResult where
  transcription : String
  confidence : ℚ
  language : String
  wordCount : ℕ
  duration : ℚ
  keywords : List String
  sentiment : Option Sentiment
deriving DecidableEq, Repr

/-- The primary recognition of the TensorFlow service as consumed by
`combineResults`: a labelled result whose `category` is a plain string
(the engine switches on the strings "music", "speech", "animal",
"environmental").  `tensorflowAudioRecognition.ts` itself is not among the
sources; this is the shape its caller reads. -/
structure TFRecognition where
  label : String
  confidence : ℚ
  category : String
  description : String
  tags : List String
deriving DecidableEq, Repr

/-- `TensorFlowAnalysis` as consumed by `combineResults`. -/
structure TensorFlowAnalysis where
  primaryRecognition : TFRecognition
  overallConfidence : ℚ
  modelUsed : String
  processingTime : ℕ
deriving DecidableEq, Repr

/-- `frequencyBands` of `AudioFeatures` in `audioAnalysis.ts`. -/
structure FrequencyBands where
  low : JSF
  mid : JSF
  high : JSF
deriving DecidableEq, Repr

/-- `AudioFeatures` as the orchestrator passes it around (fields modelled
as JavaScript numbers). -/
structure AudioFeatures where
  spectralCentroid : JSF
  spectralRolloff : JSF
  spectralFlatness : JSF
  zeroCrossingRate : JSF
  rmsEnergy : JSF
  dominantFrequencies : List JSF
  frequencyBands : FrequencyBands
  pitch : JSF
  tempo : JSF
deriving DecidableEq, Repr

/-- The extended `audioType` union of `AIRecognitionResult`. -/
inductive AudioTypeX where
  | music
  | speech
  | mixed
  | environmental
  | unknown
deriving DecidableEq, Repr

/-- The `stage` union of `RecognitionProgress` in the TensorFlow-aware
engine. -/
inductive Stage where
  | initializing
  | speech
  | classification
  | spectral
  | tensorflow
  | combining
  | complete
deriving DecidableEq, Repr

/-- `RecognitionProgress` of the engine. -/
structure RecognitionProgress where
  stage : Stage
  progress : ℕ
  message : String
deriving DecidableEq, Repr

/-- The engine's only fatal, caller-visible failure: the readiness wait
throwing `Error('AI services failed to initialize within 5 seconds')`. -/
inductive RecognitionError where
  | serviceUnavailable
deriving DecidableEq, Repr

/-- Whether a modelled JavaScript number compares `> 0` (false for NaN). -/
def JSF.gtZero : JSF → Bool
  | .num q => decide (0 < q)
  | .inf => true
  | _ => false

/-- Rendering of a modelled number into the engine's display strings.  The
digit formatting of `toFixed` is abstracted; no audited claim depends on
the rendered digits. -/
def JSF.display : JSF → String
  | .num q => toString q
  | .nan => "NaN"
  | .inf => "Infinity"
  | .ninf => "-Infinity"

/-- The category names used in the classification records. -/
def categoryName : Category → String
  | .music => "music"
  | .speech => "speech"
  | .environmental => "environmental"
  | .animal => "animal"
  | .vehicle => "vehicle"
  | .other => "other"

namespace AIRecognitionEngine

/-- Abstraction of `(q * 100).toFixed(1)` percentage rendering. -/
def fmtPct (q : ℚ) : String := toString (q * 100)

/-- The four-valued analysis `audioType` embedded into the engine's
extended union. -/
def audioTypeX : AudioType → AudioTypeX
  | .music => .music
  | .speech => .speech
  | .mixed => .mixed
  | .environmental => .environmental

/-- `AIRecognitionEngine.mapCategoryToAudioType`. -/
def mapCategoryToAudioType (category : String) : AudioTypeX :=
  if category = "music" then .music
  else if category = "speech" then .speech
  else if category = "animal" then .environmental
  else if category = "environmental" then .environmental
  else .mixed

/-- `AIRecognitionEngine.createFallbackClassification` (the engine's own
copy, textually identical to the classification service's). -/
def createFallbackClassification : ClassificationAnalysis :=
  { primaryClassification :=
      { label := "Audio Content"
        confidence := 0.5
        category := .other
        description := "General audio content detected"
        tags := ["audio", "content", "general"] }
    secondaryClassifications := []
    overallConfidence := 0.5
    detectedCategories := [.other]
    audioType := .mixed }

/-- `AIRecognitionEngine.createFallbackFeatures`: the all-zero feature set
substituted when spectral analysis fails. -/
def createFallbackFeatures : AudioFeatures :=
  { spectralCentroid := .num 0
    spectralRolloff := .num 0
    spectralFlatness := .num 0
    zeroCrossingRate := .num 0
    rmsEnergy := .num 0
    dominantFrequencies := []
    frequencyBands := { low := .num 0, mid := .num 0, high := .num 0 }
    pitch := .num 0
    tempo := .num 0 }

/-- The mutable locals of `combineResults` while the three priority blocks
run. -/
structure FusionState where
  primaryRecognition : String
  confidence : ℚ
  audioType : AudioTypeX
  detectedContent : List String
  language : Option String
  sentiment : Option Sentiment
deriving DecidableEq, Repr

/-- The initial locals of `combineResults`. -/
def fusionInit : FusionState :=
  { primaryRecognition := ""
    confidence := 0
    audioType := .unknown
    detectedContent := []
    language := none
    sentiment := none }

/-- Priority block 1 of `combineResults`: the TensorFlow result, taken when
present and of confidence strictly above the current holder's. -/
def applyTensorFlow (tensorFlowAnalysis : Option TensorFlowAnalysis) (st : FusionState) :
    FusionState :=
  match tensorFlowAnalysis with
  | some tfa =>
    if st.confidence < tfa.primaryRecognition.confidence then
      let tfResult := tfa.primaryRecognition
      { st with
        primaryRecognition := tfResult.label ++ ": " ++ tfResult.description
        confidence := tfResult.confidence
        audioType := mapCategoryToAudioType tfResult.category
        detectedContent := st.detectedContent
          ++ ["AI Recognition", "Type: " ++ tfResult.label, "Category: " ++ tfResult.category]
          ++ (if tfResult.tags.length > 0 then
                ["Tags: " ++ String.intercalate ", " (tfResult.tags.take 3)]
              else []) }
    else st
  | none => st

/-- Priority block 2 of `combineResults`: the speech analysis, taken when
present and of confidence strictly above the current holder's; it also
records language and sentiment. -/
def applySpeech (speechAnalysis : Option SpeechAnalysisResult) (st : FusionState) :
    FusionState :=
  match speechAnalysis with
  | some sa =>
    if st.confidence < sa.confidence then
      { st with
        primaryRecognition := "Speech detected: \"" ++ sa.transcription ++ "\""
        confidence := sa.confidence
        audioType := .speech
        language := some sa.language
        sentiment := sa.sentiment
        detectedContent := st.detectedContent
          ++ ["Human Speech", "Language: " ++ sa.language, "Words: " ++ toString sa.wordCount]
          ++ (if sa.keywords.length > 0 then
                ["Keywords: " ++ String.intercalate ", " (sa.keywords.take 5)]
              else []) }
    else st
  | none => st

/-- Priority block 3 of `combineResults`: the aggregated classification,
taken when its primary confidence strictly exceeds the current holder's,
with the per-category special handling of the code. -/
def applyClassification (audioClassification : ClassificationAnalysis) (st : FusionState) :
    FusionState :=
  let classification := audioClassification.primaryClassification
  if st.confidence < classification.confidence then
    if classification.category = .animal then
      { st with
        primaryRecognition := classification.label ++ ": " ++ classification.description
        confidence := max st.confidence classification.confidence
        audioType := .environmental
        detectedContent := st.detectedContent
          ++ ["Animal Sound", "Species: " ++ classification.label,
              "Type: " ++ classification.description] }
    else if classification.category = .music then
      { st with
        primaryRecognition := classification.label ++ ": " ++ classification.description
        confidence := max st.confidence classification.confidence
        audioType := .music
        detectedContent := st.detectedContent
          ++ ["Musical Content", "Genre: " ++ classification.label,
              "Style: " ++ classification.description] }
    else if classification.category = .speech then
      { st with
        primaryRecognition := classification.label ++ ": " ++ classification.description
        confidence := max st.confidence classification.confidence
        audioType := .speech
        detectedContent := st.detectedContent
          ++ ["Vocal Content", "Type: " ++ classification.label,
              "Style: " ++ classification.description] }
    else
      { st with
        primaryRecognition := classification.label ++ ": " ++ classification.description
        confidence := max st.confidence classification.confidence
        audioType := audioTypeX audioClassification.audioType }
  else st

/-- The three priority blocks of `combineResults`, in code order. -/
def fusionHolder (tensorFlowAnalysis : Option TensorFlowAnalysis)
    (speechAnalysis : Option SpeechAnalysisResult)
    (audioClassification : ClassificationAnalysis) : FusionState :=
  applyClassification audioClassification
    (applySpeech speechAnalysis (applyTensorFlow tensorFlowAnalysis fusionInit))

/-- The fused value `combineResults` returns (without `analysisTime` and
`timestamp`, which read the wall clock). -/
structure CombinedResult where
  primaryRecognition : String
  confidence : ℚ
  speechAnalysis : Option SpeechAnalysisResult
  audioClassification : ClassificationAnalysis
  spectralFeatures : AudioFeatures
  tensorFlowAnalysis : Option TensorFlowAnalysis
  audioType : AudioTypeX
  detectedContent : List String
  language : Option String
  sentiment : Option Sentiment
deriving DecidableEq, Repr

/-- `AIRecognitionEngine.combineResults`: the three priority blocks, the
informational pushes, the mixed-content override and the confidence boost,
in code order. -/
def combineResults (speechAnalysis : Option SpeechAnalysisResult)
    (audioClassification : ClassificationAnalysis)
    (spectralFeatures : AudioFeatures)
    (tensorFlowAnalysis : Option TensorFlowAnalysis) : CombinedResult :=
  let st := fusionHolder tensorFlowAnalysis speechAnalysis audioClassification
  let content1 := st.detectedContent
    ++ (match tensorFlowAnalysis with
        | some tfa =>
          ["AI Model: " ++ tfa.modelUsed,
           "AI Confidence: " ++ fmtPct tfa.overallConfidence ++ "%",
           "AI Processing: " ++ toString tfa.processingTime ++ "ms"]
        | none => [])
  let content2 := content1
    ++ ["Category: " ++ categoryName audioClassification.primaryClassification.category,
        "Confidence: " ++ fmtPct audioClassification.overallConfidence ++ "%"]
  let content3 := content2
    ++ (if audioClassification.secondaryClassifications.length > 0 then
          ["Also detected: " ++ String.intercalate ", "
            (audioClassification.secondaryClassifications.map (·.label))]
        else [])
  let content4 := content3
    ++ (if spectralFeatures.pitch.gtZero then
          ["Pitch: " ++ spectralFeatures.pitch.display ++ " Hz"]
        else [])
  let content5 := content4
    ++ (if spectralFeatures.tempo.gtZero then
          ["Tempo: " ++ spectralFeatures.tempo.display ++ " BPM"]
        else [])
  let isMixed := speechAnalysis.isSome
    && decide (audioClassification.audioType ≠ AudioType.speech)
  let finalAudioType := if isMixed then AudioTypeX.mixed else st.audioType
  let finalPrimary :=
    if isMixed then
      "Mixed content: " ++ st.primaryRecognition ++ " with background "
        ++ audioClassification.primaryClassification.label.toLower
    else st.primaryRecognition
  let finalConfidence :=
    if speechAnalysis.isSome
        && decide ((0.7 : ℚ) < audioClassification.primaryClassification.confidence) then
      min 0.95 ((st.confidence + audioClassification.overallConfidence) / 2)
    else st.confidence
  { primaryRecognition := finalPrimary
    confidence := finalConfidence
    speechAnalysis := speechAnalysis
    audioClassification := audioClassification
    spectralFeatures := spectralFeatures
    tensorFlowAnalysis := tensorFlowAnalysis
    audioType := finalAudioType
    detectedContent := content5
    language := st.language
    sentiment := st.sentiment }

/-- The readiness-wait timeout, ms (`const timeout = 5000`). -/
def serviceTimeoutMs : ℕ := 5000

/-- The fixed polling sleep, ms (`setTimeout(resolve, 100)`). -/
def pollIntervalMs : ℕ := 100

/-- The number of readiness polls the loop performs before throwing: one
per 100 ms sleep while the elapsed time stays below the 5000 ms timeout. -/
def maxPolls : ℕ := serviceTimeoutMs / pollIntervalMs

/-- The polling loop of `waitForServicesWithTimeout`: `ready k` is the
subsystems' readiness at the k-th poll; the fuel is the number of polls
remaining inside the 5-second window. -/
def waitPoll (ready : ℕ → Bool) : ℕ → ℕ → Except RecognitionError Unit
  | _, 0 => .error .serviceUnavailable
  | k, fuel + 1 => if ready k then .ok () else waitPoll ready (k + 1) fuel

/-- `AIRecognitionEngine.waitForServicesWithTimeout`. -/
def waitForServicesWithTimeout (ready : ℕ → Bool) : Except RecognitionError Unit :=
  waitPoll ready 0 maxPolls

/-- The outcomes of the sub-steps of one `recognizeAudio` call: readiness
per poll, then each service call either throws (`Except.error`, with its
message) or returns; `tfReady` is the `tensorFlowService.isReady()` guard
on the TensorFlow step. -/
structure RecognitionEnv where
  ready : ℕ → Bool
  speech : Except String SpeechAnalysisResult
  classification : Except String ClassificationAnalysis
  spectral : Except String AudioFeatures
  tfReady : Bool
  tensorflow : Except String TensorFlowAnalysis

/-- The fixed progress events `recognizeAudio` emits, in emission order. -/
def initializingEvent : RecognitionProgress :=
  { stage := .initializing, progress := 10
    message := "Initializing AI recognition services..." }

/-- The progress event of the speech stage. -/
def speechEvent : RecognitionProgress :=
  { stage := .speech, progress := 20, message := "Analyzing speech content..." }

/-- The progress event of the classification stage. -/
def classificationEvent : RecognitionProgress :=
  { stage := .classification, progress := 35, message := "Classifying audio content..." }

/-- The progress event of the spectral stage. -/
def spectralEvent : RecognitionProgress :=
  { stage := .spectral, progress := 50, message := "Analyzing spectral features..." }

/-- The progress event of the TensorFlow stage. -/
def tensorflowEvent : RecognitionProgress :=
  { stage := .tensorflow, progress := 70, message := "Running TensorFlow AI analysis..." }

/-- The progress event of the combining stage. -/
def combiningEvent : RecognitionProgress :=
  { stage := .combining, progress := 90, message := "Combining AI insights..." }

/-- The progress event of the complete stage. -/
def completeEvent : RecognitionProgress :=
  { stage := .complete, progress := 100, message := "AI recognition complete!" }

/-- The event trace of a run that passes the readiness wait. -/
def fullTrace : List RecognitionProgress :=
  [initializingEvent, speechEvent, classificationEvent, spectralEvent,
   tensorflowEvent, combiningEvent, completeEvent]

/-- `AIRecognitionEngine.recognizeAudio`: the progress events in emission
order, the fatal readiness throw, the local absorption of every sub-step
failure (speech stays undefined, classification falls back, spectral falls
back, TensorFlow stays undefined), and the final fusion.  The wall-clock
fields (`analysisTime`, `timestamp`) are not modelled. -/
def recognizeAudio (env : RecognitionEnv) :
    Except RecognitionError CombinedResult × List RecognitionProgress :=
  match waitForServicesWithTimeout env.ready with
  | .error e => (.error e, [initializingEvent])
  | .ok _ =>
    let speechAnalysis := env.speech.toOption
    let audioClassification :=
      match env.classification with
      | .ok a => a
      | .error _ => createFallbackClassification
    let spectralFeatures :=
      match env.spectral with
      | .ok fts => fts
      | .error _ => createFallbackFeatures
    let tensorFlowAnalysis := if env.tfReady then env.tensorflow.toOption else none
    let result :=
      combineResults speechAnalysis audioClassification spectralFeatures tensorFlowAnalysis
    (.ok result, fullTrace)

/-- A `recognizeAudio` trace is the lone initializing event (readiness
timeout) or the full seven-event trace. -/
theorem recognizeAudio_trace (env : RecognitionEnv) :
    (recognizeAudio env).2 = [initializingEvent] ∨ (recognizeAudio env).2 = fullTrace := by
  unfold recognizeAudio
  rcases waitForServicesWithTimeout env.ready with e | u
  · exact Or.inl rfl
  · exact Or.inr rfl

end AIRecognitionEngine

namespace AIRecognitionEngine

theorem waitPoll_error_of_never (ready : ℕ → Bool) (h : ∀ k, ready k = false) :
    ∀ fuel k, waitPoll ready k fuel = .error .serviceUnavailable := by
  intro fuel
  induction fuel with
  | zero => intro k; rfl
  | succ n ih =>
    intro k
    rw [waitPoll, h k]
    simpa using ih (k + 1)

theorem waitPoll_ok_of_ready (ready : ℕ → Bool) :
    ∀ fuel k j, j < fuel → ready (k + j) = true → waitPoll ready k fuel = .ok () := by
  intro fuel
  induction fuel with
  | zero => intro k j hj; omega
  | succ n ih =>
    intro k j hj hr
    by_cases hk : ready k = true
    · rw [waitPoll, hk]
      rfl
    · rw [waitPoll, if_neg hk]
      cases j with
      | zero => simp at hr; exact absurd hr hk
      | succ m =>
        have : ready (k + 1 + m) = true := by
          have : k + (m + 1) = k + 1 + m := by omega
          rw [← this]; exact hr
        exact ih (k + 1) m (Nat.lt_of_succ_lt_succ hj) this

theorem waitForServices_ok (ready : ℕ → Bool)
    (h : ∃ k, k < maxPolls ∧ ready k = true) :
    waitForServicesWithTimeout ready = .ok () := by
  obtain ⟨k, hk, hr⟩ := h
  exact waitPoll_ok_of_ready ready maxPolls 0 k hk (by simpa using hr)

end AIRecognitionEngine

/-- C5: if the subsystems never become ready, the readiness wait performs
its bounded fixed-interval polling — `maxPolls = 5000 / 100 = 50` polls,
whose modelled total sleep `maxPolls * pollIntervalMs` stays within the
5-second timeout — and `recognize` fails with the service-unavailable
error instead of hanging; the only progress event emitted is
`initializing` at 10, so no event with progress 100 beyond the
initializing stage is ever emitted. -/
theorem c5_never_ready_service_unavailable (env : AIRecognitionEngine.RecognitionEnv)
    (h : ∀ k, env.ready k = false) :
    (AIRecognitionEngine.recognizeAudio env).1
        = Except.error RecognitionError.serviceUnavailable
      ∧ (AIRecognitionEngine.recognizeAudio env).2
        = [{ stage := .initializing, progress := 10
             message := "Initializing AI recognition services..." }]
      ∧ (∀ e ∈ (AIRecognitionEngine.recognizeAudio env).2,
          e.progress ≠ 100 ∧ e.stage ≠ Stage.complete)
      ∧ AIRecognitionEngine.maxPolls * AIRecognitionEngine.pollIntervalMs
        ≤ AIRecognitionEngine.serviceTimeoutMs := by
  have hw : AIRecognitionEngine.waitForServicesWithTimeout env.ready
      = Except.error RecognitionError.serviceUnavailable :=
    AIRecognitionEngine.waitPoll_error_of_never env.ready h AIRecognitionEngine.maxPolls 0
  unfold AIRecognitionEngine.recognizeAudio
  rw [hw]
  refine ⟨rfl, rfl, ?_, by decide⟩
  intro e he
  simp only [List.mem_singleton] at he
  subst he
  exact ⟨by decide, by decide⟩

/-- Witness environment for C5: readiness that never arrives. -/
def envNeverReady : AIRecognitionEngine.RecognitionEnv :=
  { ready := fun _ => false
    speech := .error "speech recognition failed"
    classification := .error "classification failed"
    spectral := .error "spectral analysis failed"
    tfReady := false
    tensorflow := .error "model not loaded" }

/-- Witness for C5 at `envNeverReady`. -/
theorem c5_never_ready_service_unavailable_witness :
    (∀ k, envNeverReady.ready k = false)
      ∧ ((AIRecognitionEngine.recognizeAudio envNeverReady).1
          = Except.error RecognitionError.serviceUnavailable
        ∧ (AIRecognitionEngine.recognizeAudio envNeverReady).2
          = [{ stage := .initializing, progress := 10
               message := "Initializing AI recognition services..." }]
        ∧ (∀ e ∈ (AIRecognitionEngine.recognizeAudio envNeverReady).2,
            e.progress ≠ 100 ∧ e.stage ≠ Stage.complete)
        ∧ AIRecognitionEngine.maxPolls * AIRecognitionEngine.pollIntervalMs
          ≤ AIRecognitionEngine.serviceTimeoutMs) :=
  ⟨fun _ => rfl, c5_never_ready_service_unavailable envNeverReady (fun _ => rfl)⟩

/-- C7: every `recognize` call emits its progress events with monotonically
non-decreasing progress values across the fixed stage transitions, and an
event with progress 100 is emitted only at the `complete` stage — in both
the aborted (readiness timeout) and the completed run. -/
theorem c7_progress_monotone_100_only_complete (env : AIRecognitionEngine.RecognitionEnv) :
    List.Chain' (fun a b => a.progress ≤ b.progress)
        (AIRecognitionEngine.recognizeAudio env).2
      ∧ ∀ e ∈ (AIRecognitionEngine.recognizeAudio env).2,
          e.progress = 100 → e.stage = Stage.complete := by
  rcases AIRecognitionEngine.recognizeAudio_trace env with h | h <;> rw [h]
  · refine ⟨by simp [AIRecognitionEngine.initializingEvent], by decide⟩
  · refine ⟨?_, by decide⟩
    simp [AIRecognitionEngine.fullTrace, AIRecognitionEngine.initializingEvent,
      AIRecognitionEngine.speechEvent, AIRecognitionEngine.classificationEvent,
      AIRecognitionEngine.spectralEvent, AIRecognitionEngine.tensorflowEvent,
      AIRecognitionEngine.combiningEvent, AIRecognitionEngine.completeEvent,
      List.chain'_cons]

/-- A run environment in which the subsystems are ready at once but
feature extraction (and every other optional step) throws. -/
def envExtractionFailure : AIRecognitionEngine.RecognitionEnv :=
  { ready := fun _ => true
    speech := .error "no speech detected"
    classification := .error "classification failed"
    spectral := .error "decoding failed"
    tfReady := false
    tensorflow := .error "model not loaded" }

/-- C1 counterexample: with the subsystems ready and the spectral step
throwing (the buffer cannot be decoded), `recognizeAudio` does not abort
and the caller receives no error — the failure is absorbed, the fixed
all-zero fallback features are substituted and a fused result is
returned, built from exactly those substituted features. -/
theorem c1_counterexample_extraction_failure_absorbed :
    (AIRecognitionEngine.recognizeAudio envExtractionFailure).1.map
        AIRecognitionEngine.CombinedResult.spectralFeatures
      = Except.ok AIRecognitionEngine.createFallbackFeatures := rfl

/-- C1 (amended): feature-extraction failure is not fatal — whenever the
readiness wait succeeds and the spectral step fails, `recognizeAudio`
still returns a fused result to the caller, with the fixed fallback
features substituted for the failed extraction. -/
theorem c1_extraction_failure_substitutes_fallback
    (env : AIRecognitionEngine.RecognitionEnv)
    (hready : ∃ k, k < AIRecognitionEngine.maxPolls ∧ env.ready k = true)
    (msg : String) (hspec : env.spectral = .error msg) :
    ∃ r, (AIRecognitionEngine.recognizeAudio env).1 = Except.ok r
      ∧ r.spectralFeatures = AIRecognitionEngine.createFallbackFeatures := by
  have hw : AIRecognitionEngine.waitForServicesWithTimeout env.ready = .ok () :=
    AIRecognitionEngine.waitForServices_ok env.ready hready
  unfold AIRecognitionEngine.recognizeAudio
  rw [hw, hspec]
  exact ⟨_, rfl, rfl⟩

/-- Witness for C1 (amended) at `envExtractionFailure`. -/
theorem c1_extraction_failure_substitutes_fallback_witness :
    (∃ k, k < AIRecognitionEngine.maxPolls ∧ envExtractionFailure.ready k = true)
      ∧ envExtractionFailure.spectral = .error "decoding failed"
      ∧ ∃ r, (AIRecognitionEngine.recognizeAudio envExtractionFailure).1 = Except.ok r
          ∧ r.spectralFeatures = AIRecognitionEngine.createFallbackFeatures :=
  ⟨⟨0, by decide, rfl⟩, rfl,
    c1_extraction_failure_substitutes_fallback envExtractionFailure
      ⟨0, by decide, rfl⟩ "decoding failed" rfl⟩

namespace AIRecognitionEngine

/-- A fusion source as the claim describes it: the text, confidence and
audio type it would install as the holder. -/
structure FusionCandidate where
  text : String
  confidence : ℚ
  audioType : AudioTypeX
deriving DecidableEq, Repr

/-- The candidate the TensorFlow result installs. -/
def tfCandidate (tfa : TensorFlowAnalysis) : FusionCandidate :=
  { text := tfa.primaryRecognition.label ++ ": " ++ tfa.primaryRecognition.description
    confidence := tfa.primaryRecognition.confidence
    audioType := mapCategoryToAudioType tfa.primaryRecognition.category }

/-- The candidate the transcription result installs. -/
def speechCandidate (sa : SpeechAnalysisResult) : FusionCandidate :=
  { text := "Speech detected: \"" ++ sa.transcription ++ "\""
    confidence := sa.confidence
    audioType := .speech }

/-- The candidate the aggregated heuristic classification installs, with
the engine's per-category audio-type handling. -/
def classificationCandidate (ac : ClassificationAnalysis) : FusionCandidate :=
  { text := ac.primaryClassification.label ++ ": " ++ ac.primaryClassification.description
    confidence := ac.primaryClassification.confidence
    audioType :=
      if ac.primaryClassification.category = Category.animal then .environmental
      else if ac.primaryClassification.category = Category.music then .music
      else if ac.primaryClassification.category = Category.speech then .speech
      else audioTypeX ac.audioType }

/-- The present fusion sources in the claim's priority order: TensorFlow,
transcription, aggregated classification. -/
def candidateList (tfa : Option TensorFlowAnalysis) (sa : Option SpeechAnalysisResult)
    (ac : ClassificationAnalysis) : List FusionCandidate :=
  (tfa.map tfCandidate).toList ++ (sa.map speechCandidate).toList
    ++ [classificationCandidate ac]

/-- The claim's fusion rule, read literally (from the spec's words, for
comparison with the code): the highest-priority present source is the
initial holder, and each later source replaces the holder only when its
confidence strictly exceeds the holder's, ties keeping the earlier
source. -/
def claimPriorityHolder (cands : List FusionCandidate) : Option FusionCandidate :=
  cands.foldl
    (fun acc c =>
      match acc with
      | none => some c
      | some h => if h.confidence < c.confidence then some c else acc)
    none

/-- The observable holder triple of a fusion state: primary recognition
text, confidence, audio type. -/
def holderTriple (st : FusionState) : String × ℚ × AudioTypeX :=
  (st.primaryRecognition, st.confidence, st.audioType)

/-- The holder triple the claim's literal reading predicts. -/
def claimTriple (tfa : Option TensorFlowAnalysis) (sa : Option SpeechAnalysisResult)
    (ac : ClassificationAnalysis) : String × ℚ × AudioTypeX :=
  match claimPriorityHolder (candidateList tfa sa ac) with
  | some c => (c.text, c.confidence, c.audioType)
  | none => ("", 0, .unknown)

/-- The empty holder the code starts from: empty text, confidence 0,
unknown audio type. -/
def emptyCandidate : FusionCandidate :=
  { text := "", confidence := 0, audioType := .unknown }

/-- One step of the strict-improvement fold: a later source replaces the
holder only when its confidence strictly exceeds the holder's. -/
def holderStep (h c : FusionCandidate) : FusionCandidate :=
  if h.confidence < c.confidence then c else h

/-- The amended fusion rule: the same strict-improvement fold in the same
priority order, but started from the empty holder of confidence 0, as the
code does. -/
def amendedTriple (tfa : Option TensorFlowAnalysis) (sa : Option SpeechAnalysisResult)
    (ac : ClassificationAnalysis) : String × ℚ × AudioTypeX :=
  let final := (candidateList tfa sa ac).foldl holderStep emptyCandidate
  (final.text, final.confidence, final.audioType)

end AIRecognitionEngine

/-- A concrete TensorFlow analysis of confidence 0. -/
def c3ZeroConfTF : TensorFlowAnalysis :=
  { primaryRecognition :=
      { label := "Synth Pad", confidence := 0, category := "music"
        description := "synthesizer texture", tags := [] }
    overallConfidence := 0
    modelUsed := "audio-model"
    processingTime := 12 }

/-- A concrete aggregated classification of confidence 0. -/
def c3ZeroConfClassification : ClassificationAnalysis :=
  { primaryClassification :=
      { label := "Quiet", confidence := 0, category := .other
        description := "near silence", tags := [] }
    secondaryClassifications := []
    overallConfidence := 0
    detectedCategories := [.other]
    audioType := .mixed }

/-- C3 counterexample: with a TensorFlow result present at confidence 0
(and no better source), the claim's literal priority reading makes the
TensorFlow result the holder, but the code's holder starts as an empty
result with confidence 0 and a source takes hold only on strictly greater
confidence, so the fused primary recognition stays empty — the two
disagree. -/
theorem c3_counterexample_zero_confidence_sources :
    AIRecognitionEngine.holderTriple
        (AIRecognitionEngine.fusionHolder (some c3ZeroConfTF) none c3ZeroConfClassification)
      ≠ AIRecognitionEngine.claimTriple (some c3ZeroConfTF) none c3ZeroConfClassification := by
  decide

namespace AIRecognitionEngine

/-- The candidate a fusion state currently holds. -/
def candOf (st : FusionState) : FusionCandidate :=
  { text := st.primaryRecognition, confidence := st.confidence, audioType := st.audioType }

/-- The observable triple of a candidate. -/
def projectCandidate (c : FusionCandidate) : String × ℚ × AudioTypeX :=
  (c.text, c.confidence, c.audioType)

theorem holderTriple_eq_project (st : FusionState) :
    holderTriple st = projectCandidate (candOf st) := rfl

theorem candOf_fusionInit : candOf fusionInit = emptyCandidate := rfl

theorem applyTensorFlow_none (st : FusionState) : applyTensorFlow none st = st := rfl

theorem applySpeech_none (st : FusionState) : applySpeech none st = st := rfl

theorem candOf_applyTensorFlow (t : TensorFlowAnalysis) (st : FusionState) :
    candOf (applyTensorFlow (some t) st) = holderStep (candOf st) (tfCandidate t) := by
  unfold applyTensorFlow holderStep tfCandidate candOf
  dsimp only
  by_cases h : st.confidence < t.primaryRecognition.confidence
  · rw [if_pos h, if_pos h]
  · rw [if_neg h, if_neg h]

theorem candOf_applySpeech (sa : SpeechAnalysisResult) (st : FusionState) :
    candOf (applySpeech (some sa) st) = holderStep (candOf st) (speechCandidate sa) := by
  unfold applySpeech holderStep speechCandidate candOf
  dsimp only
  by_cases h : st.confidence < sa.confidence
  · rw [if_pos h, if_pos h]
  · rw [if_neg h, if_neg h]

theorem candOf_applyClassification (ac : ClassificationAnalysis) (st : FusionState) :
    candOf (applyClassification ac st) = holderStep (candOf st) (classificationCandidate ac) := by
  unfold applyClassification holderStep classificationCandidate candOf
  dsimp only
  by_cases h : st.confidence < ac.primaryClassification.confidence
  · rw [if_pos h, if_pos h]
    split_ifs <;> simp [max_eq_right h.le]
  · rw [if_neg h, if_neg h]

end AIRecognitionEngine

/-- C3 (amended): the fusion priority is TensorFlow result, then
transcription, then aggregated classification, with a later source
replacing the holder only when its confidence strictly exceeds the
holder's (ties keep the earlier source) — amended so that the fold starts
from an empty holder with confidence 0, as the code does, so even the
highest-priority present source takes hold only when its confidence
strictly exceeds 0. -/
theorem c3_priority_fold_from_empty (tfa : Option TensorFlowAnalysis)
    (sa : Option SpeechAnalysisResult) (ac : ClassificationAnalysis) :
    AIRecognitionEngine.holderTriple (AIRecognitionEngine.fusionHolder tfa sa ac)
      = AIRecognitionEngine.amendedTriple tfa sa ac := by
  cases tfa <;> cases sa <;>
    simp only [AIRecognitionEngine.fusionHolder, AIRecognitionEngine.holderTriple_eq_project,
      AIRecognitionEngine.applyTensorFlow_none, AIRecognitionEngine.applySpeech_none,
      AIRecognitionEngine.candOf_applyTensorFlow, AIRecognitionEngine.candOf_applySpeech,
      AIRecognitionEngine.candOf_applyClassification, AIRecognitionEngine.candOf_fusionInit,
      AIRecognitionEngine.amendedTriple, AIRecognitionEngine.candidateList,
      Option.map_none, Option.map_some, Option.toList_none, Option.toList_some,
      List.nil_append, List.cons_append, List.singleton_append, List.foldl_cons,
      List.foldl_nil] <;>
    rfl
